import Mathlib

/-!
Verification development for the venue backend (src/backend/main.py,
src/backend/schemas.py): a shallow embedding of the WebSocket connection
manager, the receipt OCR parser `parse_receipt_ocr`, the chat message
validators, and the receipt upload endpoint, with theorems checking the
specification's claims about them.

Strings are embedded as `List Char`.  Monetary values are embedded exactly
in integer cents (`Nat`): every amount the source parses has the regex
shape `\d+[.,]\d{2}`, on which Python's `float` conversion never raises
and, for receipt-sized values, is order- and value-faithful to the cents
representation.  Python regular expressions are embedded by a small
backtracking engine (`RE`, `reRun`, `reSearch`, `reFindIter`) covering
exactly the constructs the source patterns use, with Python's greedy,
leftmost-first matching priorities.
-/

namespace Venue

/-- Python's `\s` character class and `str.strip` whitespace
(ASCII portion, which is all the source's data exercises). -/
def isPySpace (c : Char) : Bool :=
  c = ' ' || c = '\t' || c = '\n' || c = '\r' || c = '\x0b' || c = '\x0c'

/-- Python `str.upper`, character-wise, on ASCII letters and the Polish
diacritics appearing in the source's pattern alphabet; other characters
are unchanged. -/
def pyUpper (c : Char) : Char :=
  if 'a' ≤ c && c ≤ 'z' then Char.ofNat (c.toNat - 32)
  else if c = 'ą' then 'Ą'
  else if c = 'ć' then 'Ć'
  else if c = 'ę' then 'Ę'
  else if c = 'ł' then 'Ł'
  else if c = 'ń' then 'Ń'
  else if c = 'ó' then 'Ó'
  else if c = 'ś' then 'Ś'
  else if c = 'ź' then 'Ź'
  else if c = 'ż' then 'Ż'
  else c

/-- Python `str.lower`, character-wise, same alphabet as `pyUpper`. -/
def pyLower (c : Char) : Char :=
  if 'A' ≤ c && c ≤ 'Z' then Char.ofNat (c.toNat + 32)
  else if c = 'Ą' then 'ą'
  else if c = 'Ć' then 'ć'
  else if c = 'Ę' then 'ę'
  else if c = 'Ł' then 'ł'
  else if c = 'Ń' then 'ń'
  else if c = 'Ó' then 'ó'
  else if c = 'Ś' then 'ś'
  else if c = 'Ź' then 'ź'
  else if c = 'Ż' then 'ż'
  else c

/-- Python `str.strip()`: drop whitespace from both ends. -/
def pyStrip (s : List Char) : List Char :=
  ((s.dropWhile isPySpace).reverse.dropWhile isPySpace).reverse

/-- Python `str.split('\n')`. -/
def splitNL : List Char → List (List Char)
  | [] => [[]]
  | c :: rest =>
    match splitNL rest with
    | [] => [[c]]
    | l :: ls => if c = '\n' then [] :: l :: ls else (c :: l) :: ls

/-! ### A regular-expression engine for the source's patterns

The source's regexes use only: single-character classes, literals,
greedy `*`/`+`/`?` over single-character classes, one-level capturing
groups, and (in one pattern) `$` under `re.MULTILINE`.  Matching follows
Python's backtracking order: alternatives at each position are produced
in priority order, greedy quantifiers longest-first, and the overall
match is the first success at the leftmost possible start position. -/

/-- Regular-expression fragments sufficient for the source's patterns. -/
inductive RE where
  | eps : RE
  | ch (p : Char → Bool) : RE
  | cat (a b : RE) : RE
  | starCh (p : Char → Bool) : RE
  | plusCh (p : Char → Bool) : RE
  | optCh (p : Char → Bool) : RE
  | grp (a : RE) : RE
  | eol : RE

/-- All ways `re` can match a prefix of `s`, in Python's backtracking
priority order.  Each result is `(consumed, remainder, captures)`. -/
def reRun : RE → List Char → List (List Char × List Char × List (List Char))
  | .eps, s => [([], s, [])]
  | .ch _, [] => []
  | .ch p, c :: rest => if p c then [([c], rest, [])] else []
  | .cat a b, s =>
    (reRun a s).flatMap (fun x =>
      (reRun b x.2.1).map (fun y => (x.1 ++ y.1, y.2.1, x.2.2 ++ y.2.2)))
  | .starCh p, s =>
    let n := (s.takeWhile p).length
    (List.range (n + 1)).map (fun k => (s.take (n - k), s.drop (n - k), []))
  | .plusCh p, s =>
    let n := (s.takeWhile p).length
    (List.range n).map (fun k => (s.take (n - k), s.drop (n - k), []))
  | .optCh _, [] => [([], [], [])]
  | .optCh p, c :: rest =>
    if p c then [([c], rest, []), ([], c :: rest, [])] else [([], c :: rest, [])]
  | .grp a, s => (reRun a s).map (fun x => (x.1, x.2.1, x.2.2 ++ [x.1]))
  | .eol, [] => [([], [], [])]
  | .eol, c :: rest => if c = '\n' then [([], c :: rest, [])] else []

/-- `re.search`: the captures of the leftmost match, or `none`. -/
def reSearch (re : RE) : List Char → Option (List (List Char))
  | [] =>
    match reRun re [] with
    | x :: _ => some x.2.2
    | [] => none
  | c :: rest =>
    match reRun re (c :: rest) with
    | x :: _ => some x.2.2
    | [] => reSearch re rest

/-- Fueled body of `re.finditer`: successive non-overlapping matches,
resuming after each match's end (every source pattern consumes at least
one character, so the fuel `length + 1` always suffices). -/
def reFindIterFuel (re : RE) : Nat → List Char → List (List (List Char))
  | 0, _ => []
  | _ + 1, [] =>
    match reRun re [] with
    | x :: _ => [x.2.2]
    | [] => []
  | fuel + 1, c :: rest =>
    match reRun re (c :: rest) with
    | x :: _ =>
      if x.1.isEmpty then x.2.2 :: reFindIterFuel re fuel rest
      else x.2.2 :: reFindIterFuel re fuel x.2.1
    | [] => reFindIterFuel re fuel rest

/-- `re.finditer` (and `re.findall` via the patterns' capture groups). -/
def reFindIter (re : RE) (s : List Char) : List (List (List Char)) :=
  reFindIterFuel re (s.length + 1) s

/-- Sequence a list of fragments. -/
def reSeq (rs : List RE) : RE := rs.foldr .cat .eps

/-- A literal under `re.IGNORECASE` (the source applies the total patterns,
whose literals are uppercase, with that flag). -/
def litCI (s : String) : RE :=
  reSeq (s.data.map (fun c => .ch (fun x => pyUpper x = c)))

/-! ### The source's pattern tables (main.py, `parse_receipt_ocr`) -/

/-- `\d` (ASCII portion of Python's digit class). -/
def chDigit : RE := .ch Char.isDigit

/-- `[.,]` -/
def chSep : RE := .ch (fun c => c = '.' || c = ',')

/-- `\d{n}` -/
def digitsN (n : Nat) : RE := reSeq (List.replicate n chDigit)

/-- `(\d+[.,]\d{2})` — the amount capture group all money patterns share. -/
def amountGrp : RE := .grp (reSeq [.plusCh Char.isDigit, chSep, chDigit, chDigit])

/-- `\s*:?\s*(\d+[.,]\d{2})` — the tail of the label-anchored totals. -/
def amountTail : RE :=
  reSeq [.starCh isPySpace, .optCh (fun c => c = ':'), .starCh isPySpace, amountGrp]

/-- `\s+` between label words. -/
def wsPlus : RE := .plusCh isPySpace

/-- `total_patterns` of `parse_receipt_ocr`, in source order. -/
def total_patterns : List RE := [
  reSeq [litCI "SUMA", amountTail],
  reSeq [litCI "SUMA", wsPlus, litCI "PLN", amountTail],
  reSeq [litCI "SUMA", wsPlus, litCI "ZŁ", amountTail],
  reSeq [litCI "KWOTA", wsPlus, litCI "DO", wsPlus, litCI "ZAPŁATY", amountTail],
  reSeq [litCI "DO", wsPlus, litCI "ZAPŁATY", amountTail],
  reSeq [litCI "DO", wsPlus, litCI "ZAPŁATY", wsPlus, litCI "PLN", amountTail],
  reSeq [litCI "RAZEM", amountTail],
  reSeq [litCI "RAZEM", wsPlus, litCI "PLN", amountTail],
  reSeq [litCI "RAZEM", wsPlus, litCI "ZŁ", amountTail],
  reSeq [litCI "WARTOŚĆ", wsPlus, litCI "BRUTTO", amountTail],
  reSeq [litCI "OGÓŁEM", amountTail],
  reSeq [litCI "ŁĄCZNIE", amountTail],
  reSeq [litCI "NALEŻNOŚĆ", amountTail],
  reSeq [litCI "GOTÓWKA", amountTail],
  reSeq [litCI "KARTA", amountTail],
  reSeq [litCI "PŁATNOŚĆ", amountTail],
  reSeq [litCI "TOTAL", amountTail],
  reSeq [litCI "SPRZEDAŻ", wsPlus, litCI "OPODATKOWANA", .starCh isPySpace,
    .optCh (fun c => 'A' ≤ pyUpper c && pyUpper c ≤ 'Z'), .starCh isPySpace, amountGrp],
  reSeq [litCI "PTU", .starCh isPySpace,
    .optCh (fun c => 'A' ≤ pyUpper c && pyUpper c ≤ 'Z'), .starCh isPySpace,
    .plusCh Char.isDigit, .optCh (fun c => c = '%'), .starCh isPySpace,
    amountGrp, .starCh isPySpace, .eol]]

/-- `date_patterns` of `parse_receipt_ocr`, in source order. -/
def date_patterns : List RE := [
  .grp (reSeq [digitsN 4, .ch (fun c => c = '-' || c = '/' || c = '.'),
    digitsN 2, .ch (fun c => c = '-' || c = '/' || c = '.'), digitsN 2]),
  .grp (reSeq [digitsN 2, .ch (fun c => c = '-' || c = '/' || c = '.'),
    digitsN 2, .ch (fun c => c = '-' || c = '/' || c = '.'), digitsN 4]),
  .grp (reSeq [digitsN 2, .ch (fun c => c = '-' || c = '/' || c = '.'),
    digitsN 2, .ch (fun c => c = '-' || c = '/' || c = '.'), digitsN 2])]

/-- The character class of the item-line pattern:
`[A-Za-zżźćńółęąśŻŹĆĄŚĘŁÓŃ\s]`. -/
def itemNameChar (c : Char) : Bool :=
  ('A' ≤ c && c ≤ 'Z') || ('a' ≤ c && c ≤ 'z') ||
  c = 'ż' || c = 'ź' || c = 'ć' || c = 'ń' || c = 'ó' || c = 'ł' ||
  c = 'ę' || c = 'ą' || c = 'ś' ||
  c = 'Ż' || c = 'Ź' || c = 'Ć' || c = 'Ą' || c = 'Ś' || c = 'Ę' ||
  c = 'Ł' || c = 'Ó' || c = 'Ń' || isPySpace c

/-- `([A-Za-zżźćńółęąśŻŹĆĄŚĘŁÓŃ\s]+)\s+(\d+[.,]\d{2})` -/
def itemRE : RE := reSeq [.grp (.plusCh itemNameChar), wsPlus, amountGrp]

/-! ### The parser `parse_receipt_ocr` (main.py lines 924–1017) -/

/-- `float(s.replace(',', '.'))` on a string of shape `\d+[.,]\d{2}`,
represented exactly in cents: the separator is skipped, so the digits
fold to  (integer part) * 100 + (fractional part). -/
def centsOfAmount (s : List Char) : Nat :=
  s.foldl (fun acc c => if c.isDigit then acc * 10 + (c.toNat - 48) else acc) 0

/-- A parsed line item: `{"name": ..., "price": ...}` (price in cents). -/
structure ReceiptItem where
  name : List Char
  price : Nat
deriving DecidableEq, Repr

/-- The parser's result dict. -/
structure ParsedReceipt where
  store_name : Option (List Char)
  date : Option (List Char)
  total : Option Nat
  items : List ReceiptItem
deriving DecidableEq, Repr

/-- The store-name scan: first of the first five stripped lines whose
length exceeds 3 and whose first three characters contain no digit,
returned verbatim. -/
def storeScan (lines : List (List Char)) : Option (List Char) :=
  ((lines.take 5).map pyStrip).find?
    (fun l => 3 < l.length && !((l.take 3).any Char.isDigit))

/-- The date scan: first date pattern with a match wins. -/
def dateScan (text : List Char) : Option (List Char) :=
  date_patterns.findSome? (fun p => (reSearch p text).bind List.head?)

/-- The total scan over `text.upper()`: first pattern whose search
succeeds wins (on the matched shape `\d+[.,]\d{2}` the source's `float`
conversion never raises, so the first match is the first successful
parse). -/
def totalScan (textUpper : List Char) : Option Nat :=
  total_patterns.findSome?
    (fun p => (reSearch p textUpper).bind (fun gs => gs.head?.map centsOfAmount))

/-- `re.findall(r'(\d+[.,]\d{2})', ocr_text)`, parsed to cents. -/
def findallAmounts (text : List Char) : List Nat :=
  (reFindIter amountGrp text).filterMap (fun gs => gs.head?.map centsOfAmount)

/-- The fallback: keep amounts with `1 <= val <= 10000` (in cents:
`100 ≤ v ≤ 1000000`) and take `max(valid_amounts)` when nonempty. -/
def fallbackTotal (text : List Char) : Option Nat :=
  match (findallAmounts text).filter (fun v => 100 ≤ v && v ≤ 1000000) with
  | [] => none
  | v :: vs => some (vs.foldl max v)

/-- The item loop: for each `finditer` match, strip the name group and
keep it with its price when the stripped name is longer than 2. -/
def itemsScan (text : List Char) : List ReceiptItem :=
  (reFindIter itemRE text).filterMap (fun gs =>
    match gs with
    | [g1, g2] =>
      let name := pyStrip g1
      if 2 < name.length then some ⟨name, centsOfAmount g2⟩ else none
    | _ => none)

/-- `parse_receipt_ocr` (main.py).  An empty input returns the all-empty
result; otherwise the four scans run independently, the total falling
back to the largest plausible amount when no label pattern matches. -/
def parse_receipt_ocr (ocr_text : List Char) : ParsedReceipt :=
  if ocr_text.isEmpty then ⟨none, none, none, []⟩
  else
    { store_name := storeScan (splitNL (pyStrip ocr_text))
      date := dateScan ocr_text
      total :=
        match totalScan (ocr_text.map pyUpper) with
        | some v => some v
        | none => fallbackTotal ocr_text
      items := itemsScan ocr_text }

/-! ### The WebSocket connection manager (main.py lines 61–97)

Python dicts are embedded as association lists with dict semantics:
`dictSet` updates in place or appends, `dictDel` removes the key,
`dictLookup` finds the entry.  `await ws.send_json(...)` is embedded by a
success predicate `sendOk : χ → μ → Bool` over an abstract channel type
`χ` and message type `μ`; the source's bare `except:` handlers are the
`sendOk ... = false` branches, so every operation is a total function —
no exception ever reaches the caller. -/

/-- Dict write: replace in place if present, else append. -/
def dictSet {α : Type} (k : Nat) (v : α) : List (Nat × α) → List (Nat × α)
  | [] => [(k, v)]
  | e :: rest => if e.1 = k then (k, v) :: rest else e :: dictSet k v rest

/-- Dict read. -/
def dictLookup {α : Type} (k : Nat) : List (Nat × α) → Option α
  | [] => none
  | e :: rest => if e.1 = k then some e.2 else dictLookup k rest

/-- `if k in d: del d[k]` — removes the key when present, else a no-op. -/
def dictDel {α : Type} (k : Nat) (d : List (Nat × α)) : List (Nat × α) :=
  d.filter (fun e => e.1 ≠ k)

/-- `ConnectionManager`: `active_connections : Dict[int, WebSocket]` and
`user_last_seen : Dict[int, datetime]` (times as abstract `Nat` ticks;
`datetime.utcnow()` is passed in as an explicit `now` argument). -/
structure ConnectionManager (χ : Type) where
  active_connections : List (Nat × χ)
  user_last_seen : List (Nat × Nat)
deriving DecidableEq

namespace ConnectionManager

/-- `connect`: store the accepted channel and record last-seen. -/
def connect {χ : Type} (m : ConnectionManager χ) (websocket : χ) (user_id : Nat)
    (now : Nat) : ConnectionManager χ :=
  ⟨dictSet user_id websocket m.active_connections,
   dictSet user_id now m.user_last_seen⟩

/-- `disconnect`: drop the registry entry when present and record the
last-seen time unconditionally. -/
def disconnect {χ : Type} (m : ConnectionManager χ) (user_id : Nat)
    (now : Nat) : ConnectionManager χ :=
  ⟨dictDel user_id m.active_connections,
   dictSet user_id now m.user_last_seen⟩

/-- `send_personal_message`: attempt delivery when registered; a failed
send (`except:`) is converted into `disconnect`. -/
def send_personal_message {χ μ : Type} (m : ConnectionManager χ)
    (sendOk : χ → μ → Bool) (message : μ) (user_id : Nat) (now : Nat) :
    ConnectionManager χ :=
  match dictLookup user_id m.active_connections with
  | none => m
  | some ws => if sendOk ws message then m else disconnect m user_id now

/-- `broadcast`: attempt delivery to every entry of the registry as it
stands at call time, collect the users whose send failed, then disconnect
them.  The second component is the delivery log — one `(user, success)`
attempt per registered entry, in registry order. -/
def broadcast {χ μ : Type} (m : ConnectionManager χ) (sendOk : χ → μ → Bool)
    (message : μ) (now : Nat) : ConnectionManager χ × List (Nat × Bool) :=
  let log := m.active_connections.map (fun e => (e.1, sendOk e.2 message))
  let disconnected :=
    (m.active_connections.filter (fun e => !sendOk e.2 message)).map (·.1)
  (disconnected.foldl (fun st u => disconnect st u now) m, log)

/-- `get_online_users`: the registry's key set. -/
def get_online_users {χ : Type} (m : ConnectionManager χ) : List Nat :=
  m.active_connections.map (·.1)

/-- `is_online`: registry membership. -/
def is_online {χ : Type} (m : ConnectionManager χ) (user_id : Nat) : Bool :=
  (dictLookup user_id m.active_connections).isSome

end ConnectionManager

/-! ### Chat message intake (schemas.py lines 407–415, main.py 1435–1437) -/

/-- `ChatMessageCreate.content_not_empty` (schemas.py): raise when the
content is falsy or blank after stripping, else store the stripped
content.  `none` embeds the raised `ValueError`. -/
def chatMessageCreate (content : List Char) : Option (List Char) :=
  if content.isEmpty || (pyStrip content).isEmpty then none
  else some (pyStrip content)

/-- The WebSocket `"message"` branch (main.py): strip the submitted
content and persist only when nonempty; blank submissions are dropped. -/
def wsMessageContent (raw : List Char) : Option (List Char) :=
  let content := pyStrip raw
  if !content.isEmpty then some content else none

/-! ### The receipt upload endpoint (main.py lines 1020–1060) -/

/-- The hard-coded mock OCR text of `upload_receipt`. -/
def MOCK_OCR_TEXT : List Char :=
  "BIEDRONKA\nul. Przykładowa 1\n2026-02-07\nPiwo 6.99\nChipsy 4.50\nSUMA PLN: 11.49".data

/-- The two rejection branches of `upload_receipt`. -/
inductive UploadError where
  | notImage
  | tooLarge
deriving DecidableEq, Repr

/-- `upload_receipt`: reject non-image content types and files over 10 MB;
otherwise parse the hard-coded mock OCR text — the uploaded bytes never
reach the parser.  File bytes are abstract (`List β`); only their count is
inspected. -/
def upload_receipt {β : Type} (content_type : List Char) (content : List β) :
    Except UploadError ParsedReceipt :=
  if !("image/".data.isPrefixOf content_type) then .error .notImage
  else if 10 * 1024 * 1024 < content.length then .error .tooLarge
  else .ok (parse_receipt_ocr MOCK_OCR_TEXT)

/-! ### Spec-side definitions

These follow the specification's wording, for comparison with the
source-side definitions above. -/

/-- The spec's total rule: try the ordered label-anchored patterns, the
first successful numeric parse wins. -/
def spec_totalFirstMatch (textUpper : List Char) : Option Nat :=
  total_patterns.findSome?
    (fun p => (reSearch p textUpper).bind (fun gs => gs.head?.map centsOfAmount))

/-- The spec's fallback rule: the maximum of the decimal-looking amounts
in the text whose value lies between 1 and 10000 inclusive (in cents:
100 to 1000000), `none` when there is no such amount. -/
def spec_maxInRange (text : List Char) : Option Nat :=
  ((findallAmounts text).filter (fun v => 100 ≤ v && v ≤ 1000000)).max?

/-- The amended store rule, read off the source: the first of the first
five stripped lines whose length exceeds 3 and whose first three
characters contain no digit, returned verbatim (no canonical-name
table exists in the source). -/
def spec_storeFirstLine (text : List Char) : Option (List Char) :=
  storeScan (splitNL (pyStrip text))

/-- Python's substring test `needle in hay`. -/
def containsSub (needle : List Char) : List Char → Bool
  | [] => needle.isEmpty
  | c :: rest => needle.isPrefixOf (c :: rest) || containsSub needle rest

/-- Modelled from the spec: the per-item category suggestion table.  The
assigning code is missing from src/ — the parser there attaches no
category to items and src only declares the `CostCategory` values
(schemas.py, models.py) — so the ordered keyword groups are modelled from
the spec's words: alcohol, non-alcoholic beverages, food/snacks, bar
supplies, cleaning supplies, in that order. -/
def category_keyword_groups : List (List (List Char) × List Char) := [
  (["piwo".data, "wino".data, "wódka".data, "whisky".data, "rum".data],
    "bar_alcohol".data),
  (["cola".data, "sok".data, "woda".data, "napój".data], "bar_beverages".data),
  (["chipsy".data, "orzeszki".data, "paluszki".data], "bar_food".data),
  (["kubki".data, "słomki".data, "serwetki".data], "bar_supplies".data),
  (["płyn".data, "mop".data, "ręcznik".data], "cleaning".data)]

/-- Modelled from the spec: suggest a category for an accepted item name —
the first keyword group with a keyword contained in the lower-cased name
wins; no match yields "other". -/
def suggest_category (name : List Char) : List Char :=
  match category_keyword_groups.find?
      (fun g => g.1.any (fun kw => containsSub kw (name.map pyLower))) with
  | some g => g.2
  | none => "other".data

/-! ### Supporting lemmas -/

theorem dictLookup_dictDel_self {α : Type} (k : Nat) (d : List (Nat × α)) :
    dictLookup k (dictDel k d) = none := by
  induction d with
  | nil => rfl
  | cons e rest ih =>
    by_cases h : e.1 = k
    · simpa [dictDel, List.filter_cons, h] using ih
    · simpa [dictDel, List.filter_cons, h, dictLookup] using ih

theorem dictLookup_dictDel_none {α : Type} {k v : Nat} {d : List (Nat × α)}
    (h : dictLookup k d = none) : dictLookup k (dictDel v d) = none := by
  induction d with
  | nil => rfl
  | cons e rest ih =>
    unfold dictLookup at h
    by_cases he : e.1 = k
    · simp [he] at h
    · simp only [he, if_false] at h
      by_cases hv : e.1 = v
      · simpa [dictDel, List.filter_cons, hv] using ih h
      · simpa [dictDel, List.filter_cons, hv, dictLookup, he] using ih h

theorem dictLookup_mem {α : Type} {k : Nat} {c : α} {d : List (Nat × α)}
    (h : dictLookup k d = some c) : (k, c) ∈ d := by
  induction d with
  | nil => simp [dictLookup] at h
  | cons e rest ih =>
    unfold dictLookup at h
    obtain ⟨a, b⟩ := e
    by_cases he : a = k
    · simp only [he, if_true, Option.some.injEq] at h
      subst he
      subst h
      exact List.mem_cons_self _ _
    · simp only [he, if_false] at h
      exact List.mem_cons_of_mem _ (ih h)

theorem dictSet_dictSet {α : Type} (k : Nat) (v1 v2 : α) (d : List (Nat × α)) :
    dictSet k v2 (dictSet k v1 d) = dictSet k v2 d := by
  induction d with
  | nil => simp [dictSet]
  | cons e rest ih =>
    by_cases h : e.1 = k
    · simp only [dictSet, h, if_true]
    · simp only [dictSet, h, if_false, ih]

theorem dictDel_idem {α : Type} (k : Nat) (d : List (Nat × α)) :
    dictDel k (dictDel k d) = dictDel k d := by
  induction d with
  | nil => rfl
  | cons e rest ih =>
    by_cases h : e.1 = k
    · simp [dictDel, List.filter_cons, h]
    · simp [dictDel, List.filter_cons, h]

theorem dictDel_eq_self_of_lookup_none {α : Type} {k : Nat} {d : List (Nat × α)}
    (h : dictLookup k d = none) : dictDel k d = d := by
  induction d with
  | nil => rfl
  | cons e rest ih =>
    unfold dictLookup at h
    by_cases he : e.1 = k
    · simp [he] at h
    · simp only [he, if_false] at h
      have hrest := ih h
      unfold dictDel at hrest ⊢
      rw [List.filter_cons, hrest]
      simp [he]

theorem lookup_none_foldl_disconnect {χ : Type} {u : Nat} (D : List Nat)
    (m : ConnectionManager χ) (now : Nat)
    (h : dictLookup u m.active_connections = none) :
    dictLookup u
      ((D.foldl (fun st x => ConnectionManager.disconnect st x now) m)).active_connections
      = none := by
  induction D generalizing m with
  | nil => exact h
  | cons v D ih =>
    exact ih _ (dictLookup_dictDel_none h)

theorem mem_foldl_disconnect {χ : Type} {u : Nat} (D : List Nat)
    (m : ConnectionManager χ) (now : Nat) (h : u ∈ D) :
    dictLookup u
      ((D.foldl (fun st x => ConnectionManager.disconnect st x now) m)).active_connections
      = none := by
  induction D generalizing m with
  | nil => cases h
  | cons v D ih =>
    rcases List.mem_cons.mp h with h1 | h2
    · subst h1
      exact lookup_none_foldl_disconnect D _ now (dictLookup_dictDel_self u _)
    · exact ih _ h2

/-! ### Claim C1 -/

/-- C1: for every registered user `u`, a delivery failure to `u`'s channel
during `send_personal_message` or `broadcast` never surfaces an error
(both operations are total functions of the state; the source's bare
`except:` is the `sendOk = false` branch) and removes `u` from the
registry, so `is_online u` is subsequently `false`; and `broadcast`
produces one delivery attempt per registered entry — in registry order —
before disconnecting the failed ones. -/
theorem delivery_failure_silently_unregisters {χ μ : Type}
    (m : ConnectionManager χ) (sendOk : χ → μ → Bool) (message : μ)
    (now : Nat) (u : Nat) (c : χ)
    (hreg : dictLookup u m.active_connections = some c)
    (hfail : sendOk c message = false) :
    (m.send_personal_message sendOk message u now).is_online u = false
    ∧ (m.broadcast sendOk message now).1.is_online u = false
    ∧ (m.broadcast sendOk message now).2.map Prod.fst
        = m.active_connections.map Prod.fst := by
  refine ⟨?_, ?_, ?_⟩
  · unfold ConnectionManager.send_personal_message
    rw [hreg]
    show (if sendOk c message = true then m else m.disconnect u now).is_online u = false
    rw [hfail]
    simp only [Bool.false_eq_true, if_false]
    unfold ConnectionManager.is_online ConnectionManager.disconnect
    simp [dictLookup_dictDel_self]
  · unfold ConnectionManager.broadcast ConnectionManager.is_online
    have hmem : u ∈ (m.active_connections.filter
        (fun e => !sendOk e.2 message)).map (·.1) := by
      refine List.mem_map.mpr ⟨(u, c), ?_, rfl⟩
      refine List.mem_filter.mpr ⟨dictLookup_mem hreg, ?_⟩
      simp [hfail]
    simp only
    rw [mem_foldl_disconnect _ _ _ hmem]
    rfl
  · simp [ConnectionManager.broadcast, List.map_map, Function.comp]

/-- Witness for C1 at a concrete one-user registry whose send fails. -/
theorem delivery_failure_silently_unregisters_witness :
    ((⟨[(1, 7)], []⟩ : ConnectionManager Nat).send_personal_message
        (fun _ _ => false) (0 : Nat) 1 5).is_online 1 = false
    ∧ ((⟨[(1, 7)], []⟩ : ConnectionManager Nat).broadcast
        (fun _ _ => false) (0 : Nat) 5).1.is_online 1 = false
    ∧ ((⟨[(1, 7)], []⟩ : ConnectionManager Nat).broadcast
        (fun _ _ => false) (0 : Nat) 5).2.map Prod.fst
        = [(1, 7)].map Prod.fst :=
  delivery_failure_silently_unregisters ⟨[(1, 7)], []⟩ (fun _ _ => false) 0 5 1 7
    rfl rfl

/-! ### Claim C8 -/

/-- C8 counterexample: unregistering a user who is not in the registry is
not free of side effects — `disconnect` unconditionally writes the
last-seen timestamp, so on the empty manager it changes the state. -/
theorem unregister_absent_not_noop_counterexample :
    ConnectionManager.disconnect (⟨[], []⟩ : ConnectionManager Nat) 7 5
      ≠ (⟨[], []⟩ : ConnectionManager Nat) := by decide

/-- C8 amended: two successive `disconnect` calls for the same user
collapse to one call at the second call's time (so they are idempotent
whenever the two calls see the same clock), and for a user absent from
the registry `disconnect` leaves the registry component unchanged — the
only side effect is the unconditional last-seen write. -/
theorem disconnect_last_write_wins {χ : Type} (m : ConnectionManager χ)
    (u t1 t2 : Nat) :
    (m.disconnect u t1).disconnect u t2 = m.disconnect u t2
    ∧ (dictLookup u m.active_connections = none →
        (m.disconnect u t1).active_connections = m.active_connections) := by
  constructor
  · unfold ConnectionManager.disconnect
    simp [dictDel_idem, dictSet_dictSet]
  · intro h
    unfold ConnectionManager.disconnect
    simpa using dictDel_eq_self_of_lookup_none h

/-- Witness for C8 at a concrete manager with one registered user and one
absent user. -/
theorem disconnect_last_write_wins_witness :
    ((⟨[(1, 7)], []⟩ : ConnectionManager Nat).disconnect 3 4).disconnect 3 9
        = (⟨[(1, 7)], []⟩ : ConnectionManager Nat).disconnect 3 9
    ∧ ((⟨[(1, 7)], []⟩ : ConnectionManager Nat).disconnect 3 4).active_connections
        = [(1, 7)] :=
  ⟨(disconnect_last_write_wins ⟨[(1, 7)], []⟩ 3 4 9).1,
   (disconnect_last_write_wins ⟨[(1, 7)], []⟩ 3 4 9).2 rfl⟩

/-! ### Claim C9 -/

theorem dropWhile_isPySpace_replicate_a (n : Nat) :
    (List.replicate n 'a').dropWhile isPySpace = List.replicate n 'a' := by
  cases n with
  | zero => rfl
  | succ m => simp [List.replicate_succ, List.dropWhile_cons, isPySpace]

theorem pyStrip_replicate_a (n : Nat) :
    pyStrip (List.replicate n 'a') = List.replicate n 'a' := by
  unfold pyStrip
  rw [dropWhile_isPySpace_replicate_a, List.reverse_replicate,
    dropWhile_isPySpace_replicate_a, List.reverse_replicate]

theorem isEmpty_false_of_length_pos {l : List Char} (h : 0 < l.length) :
    l.isEmpty = false := by
  cases l with
  | nil => simp at h
  | cons a as => rfl

/-- C9 counterexample: no maximum length is enforced anywhere in the
source — a 2001-character submission passes the `ChatMessageCreate`
validator unchanged, and its stored length exceeds 2000. -/
theorem chat_no_length_cap_counterexample :
    chatMessageCreate (List.replicate 2001 'a') = some (List.replicate 2001 'a')
    ∧ 2000 < (List.replicate 2001 'a').length := by
  have hlen : (List.replicate 2001 'a').length = 2001 := List.length_replicate _ _
  have hpos : 0 < (List.replicate 2001 'a').length := by
    rw [hlen]
    decide
  constructor
  · unfold chatMessageCreate
    rw [pyStrip_replicate_a, isEmpty_false_of_length_pos hpos]
    rw [if_neg (by decide)]
  · rw [hlen]
    decide

/-- C9 amended: content accepted by the REST validator
(`ChatMessageCreate`) or by the WebSocket `"message"` branch is stored as
the submitted content with surrounding whitespace stripped and is
nonempty after stripping; submissions blank after stripping are rejected
(REST raises) or dropped (WebSocket).  No length bound is enforced. -/
theorem chat_content_trimmed_nonempty (v s : List Char) :
    (chatMessageCreate v = some s → s = pyStrip v ∧ s ≠ [])
    ∧ (wsMessageContent v = some s → s = pyStrip v ∧ s ≠ [])
    ∧ (pyStrip v = [] → chatMessageCreate v = none ∧ wsMessageContent v = none) := by
  refine ⟨?_, ?_, ?_⟩
  · intro h
    unfold chatMessageCreate at h
    by_cases hc : (v.isEmpty || (pyStrip v).isEmpty) = true
    · rw [if_pos hc] at h
      cases h
    · rw [if_neg hc] at h
      injection h with h2
      subst h2
      refine ⟨rfl, ?_⟩
      intro hnil
      refine hc ?_
      rw [hnil]
      simp
  · intro h
    unfold wsMessageContent at h
    dsimp only [] at h
    by_cases hc : (pyStrip v).isEmpty = true
    · rw [hc] at h
      simp at h
    · have hf : (pyStrip v).isEmpty = false := by
        revert hc
        cases (pyStrip v).isEmpty <;> simp
      rw [hf] at h
      simp only [Bool.not_false, if_true, Option.some.injEq] at h
      refine ⟨h.symm, ?_⟩
      rw [← h]
      intro hnil
      rw [hnil] at hf
      simp at hf
  · intro h
    have he : (pyStrip v).isEmpty = true := by
      rw [h]
      rfl
    constructor
    · unfold chatMessageCreate
      rw [if_pos (by rw [he]; exact Bool.or_true _)]
    · unfold wsMessageContent
      simp [he]

/-- Witness for C9: `" hi "` is stored as `"hi"`, and the all-blank
submission `"  "` is rejected on both paths. -/
theorem chat_content_trimmed_nonempty_witness :
    ("hi".data = pyStrip " hi ".data ∧ "hi".data ≠ [])
    ∧ (chatMessageCreate "  ".data = none ∧ wsMessageContent "  ".data = none) :=
  ⟨(chat_content_trimmed_nonempty " hi ".data "hi".data).1 (by decide),
   (chat_content_trimmed_nonempty "  ".data []).2.2 (by decide)⟩

/-! ### Parser helper lemmas -/

theorem parse_total_eq (t : List Char) (h : t ≠ []) :
    (parse_receipt_ocr t).total =
      match totalScan (t.map pyUpper) with
      | some v => some v
      | none => fallbackTotal t := by
  cases t with
  | nil => exact absurd rfl h
  | cons c cs => rfl

theorem fallbackTotal_eq_max (t : List Char) :
    fallbackTotal t = spec_maxInRange t := by
  unfold fallbackTotal spec_maxInRange
  cases h : (findallAmounts t).filter (fun v => 100 ≤ v && v ≤ 1000000) with
  | nil => rfl
  | cons v vs => rfl

theorem parse_total_fallback (t : List Char)
    (h : totalScan (t.map pyUpper) = none) :
    (parse_receipt_ocr t).total = spec_maxInRange t := by
  cases t with
  | nil => rfl
  | cons c cs =>
    rw [parse_total_eq (c :: cs) (by simp), h]
    exact fallbackTotal_eq_max (c :: cs)

/-! ### Claim C2 -/

/-- C2 counterexample: containing the substring `"SUMA PLN: 11.49"` does
not pin the total to 11.49 — the earlier pattern `SUMA\s*:?\s*(...)` can
match elsewhere in the text, and the first matching pattern wins. -/
theorem total_substring_not_sufficient_counterexample :
    containsSub "SUMA PLN: 11.49".data "SUMA PLN: 11.49\nSUMA: 5.00".data = true
    ∧ (parse_receipt_ocr "SUMA PLN: 11.49\nSUMA: 5.00".data).total = some 500
    ∧ some (500 : Nat) ≠ some 1149 :=
  ⟨by decide, by decide, by decide⟩

/-- C2 amended: whenever one of the ordered label-anchored total patterns
matches (comma or period accepted as decimal separator), the parsed total
is the first successful numeric parse in pattern order; the synthetic
receipt containing `"SUMA PLN: 11.49"` as its only label line parses to
total 11.49, but a text containing that substring can parse differently
when an earlier pattern matches elsewhere. -/
theorem total_ordered_first_match (t : List Char) (v : Nat)
    (h : spec_totalFirstMatch (t.map pyUpper) = some v) :
    (parse_receipt_ocr t).total = some v := by
  cases t with
  | nil =>
    have hnil : spec_totalFirstMatch (List.map pyUpper []) = none := by decide
    rw [hnil] at h
    cases h
  | cons c cs =>
    have hts : totalScan ((c :: cs).map pyUpper) = some v := h
    rw [parse_total_eq (c :: cs) (by simp), hts]

/-- Witness for C2 at the synthetic receipt text. -/
theorem total_ordered_first_match_witness :
    spec_totalFirstMatch (MOCK_OCR_TEXT.map pyUpper) = some 1149
    ∧ (parse_receipt_ocr MOCK_OCR_TEXT).total = some 1149 :=
  ⟨by decide, total_ordered_first_match MOCK_OCR_TEXT 1149 (by decide)⟩

/-! ### Claim C3 -/

/-- C3: when no label-anchored total pattern matches, the total is the
maximum of the decimal-looking amounts whose value lies between 1 and
10000 inclusive, and `none` when no such amount exists. -/
theorem total_fallback_max_in_range (t : List Char)
    (h : spec_totalFirstMatch (t.map pyUpper) = none) :
    (parse_receipt_ocr t).total = spec_maxInRange t :=
  parse_total_fallback t h

/-- Witness for C3: a text with no total label and amounts 3.50, 12.00,
47.90 parses to total 47.90. -/
theorem total_fallback_max_in_range_witness :
    spec_totalFirstMatch ("Mleko 3.50\nChleb 12.00\nMieso 47.90".data.map pyUpper)
        = none
    ∧ (parse_receipt_ocr "Mleko 3.50\nChleb 12.00\nMieso 47.90".data).total
        = some 4790 :=
  ⟨by decide,
   (total_fallback_max_in_range "Mleko 3.50\nChleb 12.00\nMieso 47.90".data
      (by decide)).trans (by decide)⟩

/-! ### Claim C4 -/

/-- C4 counterexample: the source has no (pattern, canonical-name) table —
the store name is the first plausible line verbatim, so the example text
yields the uppercase line `"BIEDRONKA"`, not the canonical `"Biedronka"`
the claim states. -/
theorem store_name_verbatim_counterexample :
    (parse_receipt_ocr "BIEDRONKA\nul. Przykładowa 1".data).store_name
        = some "BIEDRONKA".data
    ∧ some "BIEDRONKA".data ≠ some "Biedronka".data :=
  ⟨by decide, by decide⟩

/-- C4 amended: the store name is the first of the first five stripped
lines whose length exceeds 3 and whose first three characters contain no
digit, returned verbatim (no canonical-name table; no match leaves the
store name unset); the example text yields `"BIEDRONKA"`. -/
theorem store_name_first_plausible_line :
    (∀ t, (parse_receipt_ocr t).store_name = spec_storeFirstLine t)
    ∧ (parse_receipt_ocr "BIEDRONKA\nul. Przykładowa 1".data).store_name
        = some "BIEDRONKA".data := by
  constructor
  · intro t
    cases t with
    | nil => rfl
    | cons c cs => rfl
  · decide

/-! ### Claim C5 -/

/-- C5 counterexample: the item loop applies no blacklist and no price
bound — the label line `"gotówka 20.00"` is accepted as an item whose
name contains the blacklisted token, and `"Abc 99999.99"` is accepted
with a price far above any plausible range. -/
theorem items_no_blacklist_counterexample :
    ((parse_receipt_ocr "gotówka 20.00".data).items.any
      (fun it => containsSub "gotówka".data it.name)) = true
    ∧ (parse_receipt_ocr "Abc 99999.99".data).items = [⟨"Abc".data, 9999999⟩] :=
  ⟨by decide, by decide⟩

/-- C5 amended: every accepted line item has a stripped name of length
above the floor of 2; this is the only name filter — no blacklisted-token
rejection and no price plausibility bound exist in the source. -/
theorem items_name_floor (t : List Char) (it : ReceiptItem)
    (h : it ∈ (parse_receipt_ocr t).items) : 2 < it.name.length := by
  have hitems : it ∈ itemsScan t := by
    cases t with
    | nil => simp [parse_receipt_ocr] at h
    | cons c cs => exact h
  unfold itemsScan at hitems
  obtain ⟨gs, hgs, hf⟩ := List.mem_filterMap.mp hitems
  match gs with
  | [] => simp at hf
  | [g1] => simp at hf
  | g1 :: g2 :: g3 :: gs => simp at hf
  | [g1, g2] =>
    simp only at hf
    split_ifs at hf with hlen
    cases hf
    exact hlen

/-- Witness for C5 at the synthetic receipt's first item. -/
theorem items_name_floor_witness :
    (⟨"Piwo".data, 699⟩ : ReceiptItem) ∈ (parse_receipt_ocr MOCK_OCR_TEXT).items
    ∧ 2 < ("Piwo".data : List Char).length :=
  ⟨by decide, items_name_floor MOCK_OCR_TEXT ⟨"Piwo".data, 699⟩ (by decide)⟩

/-! ### Claim C7 -/

/-- C7 counterexample: a label-extracted total bypasses every
plausibility check — `"SUMA: 0.00"` yields the non-positive total 0, and
`"SUMA: 99999999.99"` yields a total far above any sanity ceiling. -/
theorem label_total_implausible_counterexample :
    (parse_receipt_ocr "SUMA: 0.00".data).total = some 0
    ∧ (parse_receipt_ocr "SUMA: 99999999.99".data).total = some 9999999999 :=
  ⟨by decide, by decide⟩

/-- C7 amended: the plausibility invariant holds only for the fallback
path — when no label pattern matches, a present total lies between 1 and
10000 inclusive (100 to 1000000 cents); totals extracted via a label
pattern are unconstrained. -/
theorem fallback_total_in_range (t : List Char) (v : Nat)
    (h1 : spec_totalFirstMatch (t.map pyUpper) = none)
    (h2 : (parse_receipt_ocr t).total = some v) :
    100 ≤ v ∧ v ≤ 1000000 := by
  have h3 : spec_maxInRange t = some v :=
    (parse_total_fallback t h1).symm.trans h2
  unfold spec_maxInRange at h3
  have hv := List.max?_mem max_choice h3
  have hp := (List.mem_filter.mp hv).2
  simp only [Bool.and_eq_true, decide_eq_true_eq] at hp
  exact hp

/-- Witness for C7 at the label-free three-amount text. -/
theorem fallback_total_in_range_witness :
    spec_totalFirstMatch ("Kawa 3.50\nHerbata 8.00".data.map pyUpper) = none
    ∧ (parse_receipt_ocr "Kawa 3.50\nHerbata 8.00".data).total = some 800
    ∧ 100 ≤ 800 ∧ 800 ≤ 1000000 :=
  ⟨by decide, by decide,
   fallback_total_in_range "Kawa 3.50\nHerbata 8.00".data 800 (by decide) (by decide)⟩

/-! ### Claim C6 -/

/-- C6 (modelled from the spec, see `category_keyword_groups`): the
suggestion tests the lower-cased name against the ordered keyword groups,
first match winning — a name containing "piwo" (lower-cased) is assigned
`bar_alcohol`; a name hitting no alcohol keyword but containing "cola" is
assigned `bar_beverages`; a name hitting no keyword group at all is
assigned `other`. -/
theorem suggest_category_keyword_groups (name : List Char) :
    (containsSub "piwo".data (name.map pyLower) = true →
      suggest_category name = "bar_alcohol".data)
    ∧ (containsSub "piwo".data (name.map pyLower) = false →
       containsSub "wino".data (name.map pyLower) = false →
       containsSub "wódka".data (name.map pyLower) = false →
       containsSub "whisky".data (name.map pyLower) = false →
       containsSub "rum".data (name.map pyLower) = false →
       containsSub "cola".data (name.map pyLower) = true →
       suggest_category name = "bar_beverages".data)
    ∧ ((∀ g ∈ category_keyword_groups, ∀ kw ∈ g.1,
          containsSub kw (name.map pyLower) = false) →
        suggest_category name = "other".data) := by
  refine ⟨?_, ?_, ?_⟩
  · intro h
    simp [suggest_category, category_keyword_groups, List.find?_cons,
      List.any_cons, h]
  · intro h1 h2 h3 h4 h5 h6
    simp [suggest_category, category_keyword_groups, List.find?_cons,
      List.any_cons, h1, h2, h3, h4, h5, h6]
  · intro h
    have hnone : category_keyword_groups.find?
        (fun g => g.1.any (fun kw => containsSub kw (name.map pyLower))) = none := by
      rw [List.find?_eq_none]
      intro g hg
      rw [List.any_eq_true]
      rintro ⟨kw, hkw, hp⟩
      rw [h g hg kw hkw] at hp
      cases hp
    unfold suggest_category
    rw [hnone]

/-- Witness for C6 at the names "Piwo", "Cola" and the unmatched
"Deska". -/
theorem suggest_category_keyword_groups_witness :
    suggest_category "Piwo".data = "bar_alcohol".data
    ∧ suggest_category "Cola".data = "bar_beverages".data
    ∧ suggest_category "Deska".data = "other".data :=
  ⟨(suggest_category_keyword_groups "Piwo".data).1 (by decide),
   (suggest_category_keyword_groups "Cola".data).2.1 (by decide) (by decide)
     (by decide) (by decide) (by decide) (by decide),
   (suggest_category_keyword_groups "Deska".data).2.2 (by decide)⟩

/-! ### Claim C10 -/

/-- C10: every accepted upload (image content type, at most 10 MB) hands
the parser the same hard-coded mock OCR text, so the parsed result is the
same for all uploads, independent of the uploaded bytes: store name
`"BIEDRONKA"`, total 11.49, items `Piwo 6.99` and `Chipsy 4.50`. -/
theorem upload_receipt_constant_result {β : Type} (ct : List Char)
    (content content' : List β)
    (himg : "image/".data.isPrefixOf ct = true)
    (hsize : content.length ≤ 10 * 1024 * 1024)
    (hsize' : content'.length ≤ 10 * 1024 * 1024) :
    upload_receipt ct content = Except.ok (parse_receipt_ocr MOCK_OCR_TEXT)
    ∧ upload_receipt ct content = upload_receipt ct content'
    ∧ (parse_receipt_ocr MOCK_OCR_TEXT).store_name = some "BIEDRONKA".data
    ∧ (parse_receipt_ocr MOCK_OCR_TEXT).total = some 1149
    ∧ (parse_receipt_ocr MOCK_OCR_TEXT).items
        = [⟨"Piwo".data, 699⟩, ⟨"Chipsy".data, 450⟩] := by
  have hok : ∀ (c : List β), c.length ≤ 10 * 1024 * 1024 →
      upload_receipt ct c = Except.ok (parse_receipt_ocr MOCK_OCR_TEXT) := by
    intro c hc
    unfold upload_receipt
    rw [himg]
    simp only [Bool.not_true, Bool.false_eq_true, if_false]
    rw [if_neg (Nat.not_lt.mpr hc)]
  exact ⟨hok content hsize, (hok content hsize).trans (hok content' hsize').symm,
    by decide, by decide, by decide⟩

/-- Witness for C10 at two different concrete uploads. -/
theorem upload_receipt_constant_result_witness :
    upload_receipt "image/png".data ([] : List Nat)
        = Except.ok (parse_receipt_ocr MOCK_OCR_TEXT)
    ∧ upload_receipt "image/png".data ([] : List Nat)
        = upload_receipt "image/png".data [0] :=
  ⟨(upload_receipt_constant_result "image/png".data ([] : List Nat) [0]
      (by decide) (by decide) (by decide)).1,
   (upload_receipt_constant_result "image/png".data ([] : List Nat) [0]
      (by decide) (by decide) (by decide)).2.1⟩

end Venue
